import Mathlib

/-!
Verification development for the physiological-waveform simulator repository
(cardiac ECG generator in `src/app/page.tsx`, PPG generator in
`src/app/ppg/page.tsx`, ventilator breath generator in `src/unnamed/part_000`).

The generators are shallowly embedded over the real numbers: each JavaScript
number is modelled as a real, `Math.exp`/`Math.sin` as `Real.exp`/`Real.sin`,
`Math.floor` as `Int.floor`, and the per-sample loops as maps over
`List.range`.  The one place where IEEE-754 special values are observable —
the beat-onset scheduling loop of the cardiac generator, whose interval is
`Infinity` when `bpm = 0`, and the unguarded PPG Gaussian at `width = 0` —
is modelled exactly, with an explicit type `JSNum` of JavaScript numbers
(finite real, `Infinity`, `-Infinity`, `NaN`) whose arithmetic follows the
IEEE-754 special-value rules that JavaScript uses.

The pseudo-random source (`Math.random()`) is injected as an explicit stream
`ℕ → ℝ` (one entry per draw site), as the specification's reproducibility
requirement demands.
-/

set_option maxHeartbeats 1600000

open scoped Classical

noncomputable section

/-- JavaScript numbers as observed by the cardiac beat scheduler: a finite
real, `Infinity`, `-Infinity`, or `NaN`. -/
inductive JSNum where
  | num : ℝ → JSNum
  | posInf : JSNum
  | negInf : JSNum
  | nan : JSNum

namespace JSNum

/-- IEEE-754 multiplication restricted to the values the scheduler can
produce: `x * Infinity` follows the sign of `x`, `0 * Infinity = NaN`, and
`NaN` propagates. -/
def mul : JSNum → JSNum → JSNum
  | nan, _ => nan
  | _, nan => nan
  | num a, num b => num (a * b)
  | num a, posInf => if 0 < a then posInf else if a < 0 then negInf else nan
  | posInf, num b => if 0 < b then posInf else if b < 0 then negInf else nan
  | num a, negInf => if 0 < a then negInf else if a < 0 then posInf else nan
  | negInf, num b => if 0 < b then negInf else if b < 0 then posInf else nan
  | posInf, posInf => posInf
  | posInf, negInf => negInf
  | negInf, posInf => negInf
  | negInf, negInf => posInf

/-- IEEE-754 addition: `Infinity + (-Infinity) = NaN`, `NaN` propagates. -/
def add : JSNum → JSNum → JSNum
  | nan, _ => nan
  | _, nan => nan
  | num a, num b => num (a + b)
  | num _, posInf => posInf
  | posInf, num _ => posInf
  | num _, negInf => negInf
  | negInf, num _ => negInf
  | posInf, posInf => posInf
  | negInf, negInf => negInf
  | posInf, negInf => nan
  | negInf, posInf => nan

/-- JavaScript `Math.max`: returns `NaN` as soon as one argument is `NaN`. -/
def maxJS : JSNum → JSNum → JSNum
  | nan, _ => nan
  | _, nan => nan
  | num a, num b => num (max a b)
  | posInf, _ => posInf
  | _, posInf => posInf
  | negInf, y => y
  | x, negInf => x

/-- The JavaScript `<` comparison: every comparison against `NaN` is false. -/
def ltJS : JSNum → JSNum → Prop
  | num a, num b => a < b
  | num _, posInf => True
  | negInf, num _ => True
  | negInf, posInf => True
  | _, _ => False

/-- Read a finite JavaScript number back as a real (junk value `0` on the
non-finite values; every entry the scheduler actually emits is finite). -/
def toR : JSNum → ℝ
  | num a => a
  | _ => 0

end JSNum

/-- Rounding to two decimals, the numeric content of `toFixed(2)` on
non-negative inputs (round half up). -/
def round2 (x : ℝ) : ℝ := (⌊x * 100 + 1 / 2⌋ : ℤ) / 100

/-! ## Cardiac ECG generator (`src/app/page.tsx`) -/

/-- The Gaussian pulse primitive of the cardiac page, with its explicit
`width === 0` guard:
`const gaussian = (t, center, amp, width) => { if (width === 0) return 0; ... }`. -/
def gaussian (t center amp width : ℝ) : ℝ :=
  if width = 0 then 0
  else amp * Real.exp (-(t - center) ^ 2 / (2 * width * width))

/-- The rhythm preset ids of the `PRESETS` table. -/
inductive Preset where
  | NORMAL | TACHYCARDIA | BRADYCARDIA | AFIB | PVC | VTACH | VFIB
  | HYPERKALEMIA | HYPOKALEMIA | STEMI | ASYSTOLE
deriving DecidableEq

/-- The cardiac parameter record.  `qrsWidthScale` is an optional field in the
source (only the `VTACH` preset sets it), hence `Option ℝ`. -/
structure EcgParams where
  bpm : ℝ
  pAmp : ℝ
  pWidth : ℝ
  qAmp : ℝ
  rAmp : ℝ
  sAmp : ℝ
  tAmp : ℝ
  tWidth : ℝ
  uAmp : ℝ
  noise : ℝ
  irregularity : ℝ
  stElevation : ℝ
  qrsWidthScale : Option ℝ := none

/-- `params.qrsWidthScale || 1.0`: JavaScript `||` falls through to `1.0` both
when the field is absent and when it is `0` (falsy). -/
def qrsMult (p : EcgParams) : ℝ :=
  match p.qrsWidthScale with
  | none => 1
  | some v => if v = 0 then 1 else v

/-- One pass of the beat-onset scheduling loop
`while (currentTime < duration + 1) { beatTimes.push(currentTime); ... }`
with `duration = 4`.  The loop is driven by JavaScript-number arithmetic
because `baseInterval` is `Infinity` when `bpm = 0`.  `fuel` strictly bounds
the iteration count; the loop advances `currentTime` by at least `0.2` per
finite step (and exits at once on a non-finite step), so at most
`⌈4.8 / 0.2⌉ + 1 = 25` iterations can occur and the fuel of `64` used by
`beatsR` is never exhausted. -/
def buildBeats (p : EcgParams) (rI : ℕ → ℝ) : ℕ → JSNum → ℕ → List JSNum
  | 0, _, _ => []
  | fuel + 1, cur, k =>
    if JSNum.ltJS cur (JSNum.num 5) then
      cur ::
        (let baseInterval : JSNum :=
          if 0 < p.bpm then JSNum.num (60 / p.bpm) else JSNum.posInf
         let nextInterval : JSNum :=
          if 0 < p.irregularity then
            baseInterval.add
              (((((JSNum.num (rI k - 0.5)).mul (JSNum.num 2)).mul
                  (JSNum.num p.irregularity)).mul baseInterval).mul
                (JSNum.num 0.5))
          else baseInterval
         buildBeats p rI fuel (cur.add ((JSNum.num 0.2).maxJS nextInterval)) (k + 1))
    else []

/-- The beat-onset times, as reals, produced by one generation call:
`currentTime` starts at `0.2`. -/
def beatsR (p : EcgParams) (rI : ℕ → ℝ) : List ℝ :=
  (buildBeats p rI 64 (JSNum.num 0.2) 0).map JSNum.toR

/-- The P/Q/R/S/ST/T/U contribution of a single beat at offset `dt`,
`qrsMult` widening the QRS cluster. -/
def beatContrib (p : EcgParams) (dt : ℝ) : ℝ :=
  gaussian dt (-0.16) p.pAmp p.pWidth +
    gaussian dt (-0.04 * qrsMult p) p.qAmp (0.02 * qrsMult p) +
    gaussian dt 0 p.rAmp (0.03 * qrsMult p) +
    gaussian dt (0.04 * qrsMult p) p.sAmp (0.03 * qrsMult p) +
    (if p.stElevation ≠ 0 ∧ 0.08 < dt ∧ dt < 0.25 then
       p.stElevation * Real.exp (-(dt - 0.15) ^ 2 / (2 * 0.1 * 0.1))
     else 0) +
    gaussian dt 0.25 p.tAmp p.tWidth +
    (if p.uAmp ≠ 0 then gaussian dt 0.45 p.uAmp 0.06 else 0)

/-- The voltage of output sample `i` (sample time `t = i / 100`): the `VFIB`
and `ASYSTOLE` presets bypass the beat model; otherwise every scheduled beat
whose offset lies in `(-0.5, 1.0)` contributes, uniform noise is added, and
the `AFIB` preset adds its fibrillatory sine term.  `rN i` is the
`Math.random()` draw of sample `i`. -/
def ecgVoltage (preset : Preset) (p : EcgParams) (beats : List ℝ)
    (rN : ℕ → ℝ) (i : ℕ) : ℝ :=
  let t : ℝ := i / 100
  if preset = Preset.VFIB then
    Real.sin (t * 30) * 0.2 + Real.sin (t * 45) * 0.15 + (rN i - 0.5) * p.noise
  else if preset = Preset.ASYSTOLE then
    (rN i - 0.5) * p.noise
  else
    (beats.map (fun beatTime =>
        let dt := t - beatTime
        if -0.5 < dt ∧ dt < 1 then beatContrib p dt else 0)).sum +
      (rN i - 0.5) * p.noise +
      (if preset = Preset.AFIB then Real.sin (t * 50) * 0.05 else 0)

/-- One cardiac sample point `{time, voltage}` (the source formats `time`
with `toFixed(2)`). -/
structure EcgPoint where
  time : ℝ
  voltage : ℝ

/-- The full cardiac output sequence: `totalPoints = duration * samplingRate
= 4 * 100` samples. -/
def ecgData (preset : Preset) (p : EcgParams) (rI rN : ℕ → ℝ) : List EcgPoint :=
  (List.range (4 * 100)).map fun (i : ℕ) =>
    { time := round2 ((i : ℝ) / 100)
      voltage := ecgVoltage preset p (beatsR p rI) rN i }

/-- The `NORMAL` preset's parameter set with the heart-rate slider dragged to
`0` and the noise slider to `0` (both inside the UI control ranges), used to
exercise the `bpm = 0` path of the beat scheduler. -/
def ecgBpm0Params : EcgParams :=
  { bpm := 0
    pAmp := 0.15
    pWidth := 0.04
    qAmp := -0.15
    rAmp := 1.2
    sAmp := -0.25
    tAmp := 0.3
    tWidth := 0.08
    uAmp := 0
    noise := 0
    irregularity := 0
    stElevation := 0 }

/-! ## PPG generator (`src/app/ppg/page.tsx`) -/

/-- The closed-form value of the PPG page's Gaussian for `width ≠ 0`
(`amp * Math.exp(-Math.pow(t - center, 2) / (2 * width * width))`). -/
def ppgGaussianCore (t center amp width : ℝ) : ℝ :=
  amp * Real.exp (-(t - center) ^ 2 / (2 * width * width))

/-- The PPG page's copy of the Gaussian primitive, which has NO
`width === 0` guard, modelled with JavaScript IEEE-754 semantics
(`none` encodes `NaN`).  At `width = 0` JavaScript evaluates
`-(t-center)^2 / 0`: for `t ≠ center` this is `-Infinity`, and
`amp * exp(-Infinity) = 0`; for `t = center` it is `-0/0 = NaN`, so the
result is `NaN`. -/
def ppgGaussian (t center amp width : ℝ) : Option ℝ :=
  if width = 0 then (if t = center then none else some 0)
  else some (ppgGaussianCore t center amp width)

/-- The PPG parameter record (`showRed`/`showIR` are display-only toggles). -/
structure PpgParams where
  bpm : ℝ
  spO2 : ℝ
  stiffness : ℝ
  perfusion : ℝ
  respRate : ℝ
  respAmp : ℝ
  noise : ℝ
  showRed : Bool
  showIR : Bool

/-- `const irAmplitudeBase = 1.0`. -/
def irAmplitudeBase : ℝ := 1

/-- `const rValue = 0.4 + (100 - params.spO2) * 0.03`. -/
def rValue (spO2 : ℝ) : ℝ := 0.4 + (100 - spO2) * 0.03

/-- `const redAmplitudeBase = irAmplitudeBase * rValue`. -/
def redAmplitudeBase (spO2 : ℝ) : ℝ := irAmplitudeBase * rValue spO2

/-- One PPG sample point `{time, ir, red}`. -/
structure PpgPoint where
  time : ℝ
  ir : ℝ
  red : ℝ

/-- The combined pulsatile (AC) waveform at sample `i`: systolic peak plus
stiffness-dependent diastolic peak, evaluated at the beat-local time
`t - floor(t / beatInterval) * beatInterval`, then scaled by `perfusion`.
The two Gaussian calls have width `0.06 ≠ 0`, where the unguarded PPG
Gaussian agrees with its closed form `ppgGaussianCore`. -/
def acWaveAt (p : PpgParams) (i : ℕ) : ℝ :=
  let t : ℝ := i / 60
  let beatInterval := 60 / p.bpm
  let beatIndex : ℤ := ⌊t / beatInterval⌋
  let beatTime := t - beatIndex * beatInterval
  (ppgGaussianCore beatTime 0.15 1.0 0.06 +
      ppgGaussianCore beatTime (0.35 - p.stiffness * 0.1)
        (0.3 + p.stiffness * 0.4) 0.06) *
    p.perfusion

/-- One PPG sample: respiratory DC baseline, pulsatile AC component with the
channel amplitude coefficients, and a common noise draw reused by both
channels. -/
def ppgSample (p : PpgParams) (rN : ℕ → ℝ) (i : ℕ) : PpgPoint :=
  let t : ℝ := i / 60
  let respFreq := p.respRate / 60
  let dcComponent := Real.sin (2 * Real.pi * respFreq * t) * p.respAmp
  let acWave := acWaveAt p i
  let noiseVal := (rN i - 0.5) * p.noise
  { time := round2 t
    ir := dcComponent + acWave * irAmplitudeBase + noiseVal
    red := dcComponent + acWave * redAmplitudeBase p.spO2 + noiseVal }

/-- The full PPG output sequence, `totalPoints = duration * samplingRate
= 4 * 60` samples. -/
def ppgData (p : PpgParams) (rN : ℕ → ℝ) : List PpgPoint :=
  (List.range (4 * 60)).map (ppgSample p rN)

/-! ## Ventilator breath generator (`src/unnamed/part_000`) -/

/-- `type Mode = 'VC' | 'PC'`. -/
inductive Mode where
  | VC | PC
deriving DecidableEq

/-- `type FlowShape = 'Square' | 'Decelerating'`. -/
inductive FlowShape where
  | Square | Decelerating
deriving DecidableEq

/-- The ventilator parameter record (`SimParams & { mode: Mode }`).  The
source's `ieRatio` field is embedded as `ieRatioVal`. -/
structure VentParams where
  mode : Mode
  rr : ℝ
  peep : ℝ
  tidalVolume : ℝ
  pressureControl : ℝ
  resistance : ℝ
  compliance : ℝ
  ieRatioVal : ℝ
  flowShape : FlowShape
  triggerEffort : ℝ
  overdistension : Bool
  autoPeep : Bool

/-- The `useState` defaults of the ventilator page. -/
def ventDefault : VentParams :=
  { mode := Mode.VC
    rr := 15
    peep := 5
    tidalVolume := 500
    pressureControl := 15
    resistance := 10
    compliance := 50
    ieRatioVal := 2
    flowShape := FlowShape.Decelerating
    triggerEffort := 0
    overdistension := false
    autoPeep := false }

/-- A pressure-control scenario within the UI control ranges:
`pressureControl = 30`, `resistance = 5`, `compliance = 100` over the page
defaults. -/
def ventPCHigh : VentParams :=
  { ventDefault with mode := Mode.PC, pressureControl := 30, resistance := 5, compliance := 100 }

/-- A volume-control square-flow scenario with `compliance = 4`, below the
overdistension floor of `5`. -/
def ventLowC : VentParams :=
  { ventDefault with flowShape := FlowShape.Square, compliance := 4 }

/-- The fixed simulation time step `const dt = 0.02`. -/
def ventDt : ℝ := 0.02

/-- `const cycleTime = 60 / rr`. -/
def cycleTime (p : VentParams) : ℝ := 60 / p.rr

/-- `const inspTime = cycleTime / (1 + ieRatio)`. -/
def inspTime (p : VentParams) : ℝ := cycleTime p / (1 + p.ieRatioVal)

/-- `let trappedVolume = autoPeep ? 0.1 : 0`. -/
def trappedVolume (p : VentParams) : ℝ := if p.autoPeep then 0.1 else 0

/-- The loop time of step `i`: `t = i * dt` (the `for (t = 0; t < totalTime;
t += dt)` loop in the real-number model). -/
def tAt (i : ℕ) : ℝ := i * ventDt

/-- `const timeInCycle = t % cycleTime` for the non-negative loop time. -/
def tIC (p : VentParams) (i : ℕ) : ℝ :=
  tAt i - cycleTime p * ⌊tAt i / cycleTime p⌋

/-- `const isInspiration = timeInCycle < inspTime`. -/
def isInsp (p : VentParams) (i : ℕ) : Prop := tIC p i < inspTime p

/-- `const timeConstant = resistance * (compliance / 1000)`. -/
def timeConstant (p : VentParams) : ℝ := p.resistance * (p.compliance / 1000)

/-- The flow computation of one loop step, a function of the running volume
`prevVol` (only the passive-expiration branches read it): volume-control
inspiration delivers the square or decelerating-ramp pattern, expiration is
the RC exponential decay sized from `prevVol + trappedVolume`, and
pressure-control inspiration is `(pressureControl / resistance) *
exp(-timeInCycle / timeConstant)`. -/
def flowAt (p : VentParams) (i : ℕ) (prevVol : ℝ) : ℝ :=
  if p.mode = Mode.VC then
    if isInsp p i then
      let targetVolL := p.tidalVolume / 1000
      if p.flowShape = FlowShape.Square then targetVolL / inspTime p
      else (2 * targetVolL / inspTime p) * (1 - tIC p i / inspTime p)
    else
      let expTimeElapsed := tIC p i - inspTime p
      let peakExpFlow := -(prevVol + trappedVolume p) / timeConstant p
      peakExpFlow * Real.exp (-expTimeElapsed / timeConstant p)
  else
    if isInsp p i then
      (p.pressureControl / p.resistance) * Real.exp (-tIC p i / timeConstant p)
    else
      let expTimeElapsed := tIC p i - inspTime p
      let peakExpFlow := -(prevVol + trappedVolume p) / timeConstant p
      peakExpFlow * Real.exp (-expTimeElapsed / timeConstant p)

/-- The volume update of one loop step: reset to `trappedVolume` at the first
step of an inspiration (`isInspiration && timeInCycle < dt`), integrate
`flow * dt`, and clamp at zero. -/
def stepVol (p : VentParams) (i : ℕ) (prevVol : ℝ) : ℝ :=
  let flow := flowAt p i prevVol
  let v0 := if isInsp p i ∧ tIC p i < ventDt then trappedVolume p else prevVol
  let v1 := v0 + flow * ventDt
  if v1 < 0 then 0 else v1

/-- `currentVol` after loop step `i` (the only state threaded between steps:
`currentFlow` and `currentPressure` are recomputed before every use). -/
def ventVol (p : VentParams) : ℕ → ℝ
  | 0 => stepVol p 0 0
  | i + 1 => stepVol p (i + 1) (ventVol p i)

/-- The running volume read by step `i` (the state entering the step). -/
def prevVolAt (p : VentParams) : ℕ → ℝ
  | 0 => 0
  | i + 1 => ventVol p i

/-- `currentFlow` at loop step `i`. -/
def ventFlow (p : VentParams) (i : ℕ) : ℝ := flowAt p i (prevVolAt p i)

/-- `const isTriggerPhase = timeInCycle > cycleTime - 0.15 ||
(timeInCycle < 0.1 && t > 0)`. -/
def isTriggerPhase (p : VentParams) (i : ℕ) : Prop :=
  tIC p i > cycleTime p - 0.15 ∨ (tIC p i < 0.1 ∧ tAt i > 0)

/-- The patient muscle-pressure term: active only when `triggerEffort > 0`
inside the trigger window, a negative sine pulse. -/
def musclePressure (p : VentParams) (i : ℕ) : ℝ :=
  if p.triggerEffort > 0 ∧ isTriggerPhase p i then
    -p.triggerEffort *
      Real.sin (Real.pi *
        (if tIC p i < 0.1 then tIC p i + 0.15
         else tIC p i - (cycleTime p - 0.15)) / 0.25)
  else 0

/-- The effective compliance at volume `v`: reduced linearly past `0.45 L`
when `overdistension` is enabled, floored at `5`
(`if (effectiveCompliance < 5) effectiveCompliance = 5`). -/
def effectiveCompliance (p : VentParams) (v : ℝ) : ℝ :=
  if p.overdistension = true ∧ v > 0.45 then
    let e := p.compliance * (1 - (v - 0.45) * 2)
    if e < 5 then 5 else e
  else p.compliance

/-- `currentPressure` at loop step `i`: pinned to `peep + pressureControl`
in pressure-control inspiration, otherwise the equation of motion
`flow * R + (vol * 1000) / effectiveCompliance + peep + musclePressure`. -/
def ventPressure (p : VentParams) (i : ℕ) : ℝ :=
  if p.mode = Mode.PC ∧ isInsp p i then p.peep + p.pressureControl
  else
    ventFlow p i * p.resistance +
      ventVol p i * 1000 / effectiveCompliance p (ventVol p i) +
      p.peep + musclePressure p i

/-- One ventilator scalar sample `{time, pressure, flow, volume}` with the
source's unit conversions (`flow * 60` L/min, `volume * 1000` mL, `time`
through `parseFloat(t.toFixed(2))`). -/
structure ScalarPoint where
  time : ℝ
  pressure : ℝ
  flow : ℝ
  volume : ℝ

/-- One ventilator loop sample `{pressure, flow, volume}`. -/
structure LoopPoint where
  pressure : ℝ
  flow : ℝ
  volume : ℝ

/-- The scalar sample emitted at loop step `i`. -/
def ventScalar (p : VentParams) (i : ℕ) : ScalarPoint :=
  { time := round2 (tAt i)
    pressure := ventPressure p i
    flow := ventFlow p i * 60
    volume := ventVol p i * 1000 }

/-- The loop sample emitted at loop step `i` (same values, time dropped). -/
def ventLoop (p : VentParams) (i : ℕ) : LoopPoint :=
  { pressure := ventPressure p i
    flow := ventFlow p i * 60
    volume := ventVol p i * 1000 }

/-- The trip count of `for (t = 0; t < totalTime; t += dt)` with
`totalTime = cycleTime * 2` in the real-number model: the number of naturals
`i` with `i * dt < totalTime`, i.e. `⌈totalTime / dt⌉` (see
`numSteps_spec`). -/
def numSteps (p : VentParams) : ℕ := ⌈cycleTime p * 2 / ventDt⌉₊

/-- The full scalar sequence of one generation call (two cycles). -/
def ventScalarsList (p : VentParams) : List ScalarPoint :=
  (List.range (numSteps p)).map (ventScalar p)

/-- The full loop sequence of one generation call. -/
def ventLoopsList (p : VentParams) : List LoopPoint :=
  (List.range (numSteps p)).map (ventLoop p)

end

/-! ## Helper lemmas: JavaScript-number arithmetic of the beat scheduler -/

theorem jsnum_mul_num_num (a b : ℝ) :
    (JSNum.num a).mul (JSNum.num b) = JSNum.num (a * b) := rfl

theorem jsnum_mul_num_posInf (a : ℝ) :
    (JSNum.num a).mul JSNum.posInf =
      if 0 < a then JSNum.posInf else if a < 0 then JSNum.negInf else JSNum.nan := rfl

theorem jsnum_mul_posInf_num (b : ℝ) :
    JSNum.posInf.mul (JSNum.num b) =
      if 0 < b then JSNum.posInf else if b < 0 then JSNum.negInf else JSNum.nan := rfl

theorem jsnum_mul_negInf_num (b : ℝ) :
    JSNum.negInf.mul (JSNum.num b) =
      if 0 < b then JSNum.negInf else if b < 0 then JSNum.posInf else JSNum.nan := rfl

theorem jsnum_mul_nan_num (b : ℝ) : JSNum.nan.mul (JSNum.num b) = JSNum.nan := rfl

theorem jsnum_add_num_posInf (a : ℝ) :
    (JSNum.num a).add JSNum.posInf = JSNum.posInf := rfl

theorem jsnum_add_num_nan (a : ℝ) : (JSNum.num a).add JSNum.nan = JSNum.nan := rfl

theorem jsnum_add_posInf_posInf : JSNum.posInf.add JSNum.posInf = JSNum.posInf := rfl

theorem jsnum_add_posInf_negInf : JSNum.posInf.add JSNum.negInf = JSNum.nan := rfl

theorem jsnum_add_posInf_nan : JSNum.posInf.add JSNum.nan = JSNum.nan := rfl

theorem jsnum_maxJS_num_posInf (a : ℝ) :
    (JSNum.num a).maxJS JSNum.posInf = JSNum.posInf := rfl

theorem jsnum_maxJS_num_nan (a : ℝ) : (JSNum.num a).maxJS JSNum.nan = JSNum.nan := rfl

/-- The scheduling loop exits immediately once `currentTime` is `Infinity`
(`Infinity < 5` is false). -/
theorem buildBeats_posInf (p : EcgParams) (rI : ℕ → ℝ) (fuel k : ℕ) :
    buildBeats p rI fuel JSNum.posInf k = [] := by
  cases fuel with
  | zero => rfl
  | succ n => simp [buildBeats, JSNum.ltJS]

/-- The scheduling loop exits immediately once `currentTime` is `NaN`
(`NaN < 5` is false). -/
theorem buildBeats_nan (p : EcgParams) (rI : ℕ → ℝ) (fuel k : ℕ) :
    buildBeats p rI fuel JSNum.nan k = [] := by
  cases fuel with
  | zero => rfl
  | succ n => simp [buildBeats, JSNum.ltJS]

/-- With `bpm = 0` the base interval is `Infinity`; the loop pushes the
initial onset `0.2`, then `currentTime` becomes `Infinity` (no irregularity,
or a random draw above `0.5`) or `NaN` (a draw at or below `0.5`, through
`Infinity - Infinity` or `0 * Infinity`), and the loop stops: the schedule
is exactly `[0.2]` whatever the random source and irregularity. -/
theorem buildBeats_bpm0 (p : EcgParams) (rI : ℕ → ℝ) (hb : p.bpm = 0) :
    buildBeats p rI 64 (JSNum.num 0.2) 0 = [JSNum.num 0.2] := by
  have h02 : JSNum.ltJS (JSNum.num 0.2) (JSNum.num 5) := by
    show (0.2 : ℝ) < 5
    norm_num
  have hbase : (if 0 < p.bpm then JSNum.num (60 / p.bpm) else JSNum.posInf)
      = JSNum.posInf := by
    rw [hb]
    norm_num
  show buildBeats p rI (63 + 1) (JSNum.num 0.2) 0 = [JSNum.num 0.2]
  rw [buildBeats, if_pos h02]
  simp only [hbase]
  by_cases hirr : 0 < p.irregularity
  · rw [if_pos hirr]
    rcases lt_trichotomy (rI 0) 0.5 with h | h | h
    · have hneg : (rI 0 - 0.5) * 2 * p.irregularity < 0 := by nlinarith
      rw [jsnum_mul_num_num, jsnum_mul_num_num, jsnum_mul_num_posInf,
        if_neg (by linarith), if_pos hneg, jsnum_mul_negInf_num,
        if_pos (by norm_num : (0 : ℝ) < 0.5), jsnum_add_posInf_negInf,
        jsnum_maxJS_num_nan, jsnum_add_num_nan, buildBeats_nan]
    · have hz : (rI 0 - 0.5) * 2 * p.irregularity = 0 := by
        rw [h]
        ring
      rw [jsnum_mul_num_num, jsnum_mul_num_num, jsnum_mul_num_posInf,
        if_neg (by rw [hz]; exact lt_irrefl 0),
        if_neg (by rw [hz]; exact lt_irrefl 0),
        jsnum_mul_nan_num, jsnum_add_posInf_nan, jsnum_maxJS_num_nan,
        jsnum_add_num_nan, buildBeats_nan]
    · have hpos : 0 < (rI 0 - 0.5) * 2 * p.irregularity := by nlinarith
      rw [jsnum_mul_num_num, jsnum_mul_num_num, jsnum_mul_num_posInf,
        if_pos hpos, jsnum_mul_posInf_num,
        if_pos (by norm_num : (0 : ℝ) < 0.5), jsnum_add_posInf_posInf,
        jsnum_maxJS_num_posInf, jsnum_add_num_posInf, buildBeats_posInf]
  · rw [if_neg hirr, jsnum_maxJS_num_posInf, jsnum_add_num_posInf,
      buildBeats_posInf]

/-- The real-valued beat schedule at `bpm = 0`: the single onset `0.2`. -/
theorem beatsR_bpm0 (p : EcgParams) (rI : ℕ → ℝ) (hb : p.bpm = 0) :
    beatsR p rI = [(0.2 : ℝ)] := by
  unfold beatsR
  rw [buildBeats_bpm0 p rI hb]
  rfl

/-! ## C1: cardiac generator at `bpm = 0` -/

/-- C1 (amended): when `bpm = 0` the nominal interval is `Infinity`, but the
scheduling loop has already pushed its initial onset, so exactly one beat is
scheduled, at `t = 0.2 s` — not none.  With `noise = 0` and a preset other
than the two special cases, every sample from `t = 1.2 s` on (offset `≥ 1.0`
from the single beat, outside the contribution window) has voltage `0`
except for the `AFIB` preset's fibrillatory sine term; the generator is a
total function (it does not throw). -/
theorem c1_bpm0_single_beat_and_zero_tail (preset : Preset) (p : EcgParams)
    (rI rN : ℕ → ℝ) (hb : p.bpm = 0) (hn : p.noise = 0)
    (hv : preset ≠ Preset.VFIB) (ha : preset ≠ Preset.ASYSTOLE)
    (i : ℕ) (hi : 120 ≤ i) :
    beatsR p rI = [(0.2 : ℝ)] ∧
      ecgVoltage preset p (beatsR p rI) rN i =
        (if preset = Preset.AFIB then Real.sin ((i : ℝ) / 100 * 50) * 0.05
         else 0) := by
  have hbeats := beatsR_bpm0 p rI hb
  refine ⟨hbeats, ?_⟩
  rw [hbeats]
  have hcast : (120 : ℝ) ≤ (i : ℝ) := by exact_mod_cast hi
  have hdt : ¬(-0.5 < (i : ℝ) / 100 - 0.2 ∧ (i : ℝ) / 100 - 0.2 < 1) := by
    intro hcon
    nlinarith [hcon.2]
  simp only [ecgVoltage, if_neg hv, if_neg ha, List.map_cons, List.map_nil,
    List.sum_cons, List.sum_nil, if_neg hdt, hn, mul_zero, add_zero, zero_add]

/-- C1 witness: the amended statement at the `NORMAL` parameter set with
`bpm = 0`, `noise = 0`, sample `150` (`t = 1.5 s`). -/
theorem c1_witness :
    beatsR ecgBpm0Params (fun _ => 0) = [(0.2 : ℝ)] ∧
      ecgVoltage Preset.NORMAL ecgBpm0Params (beatsR ecgBpm0Params (fun _ => 0))
          (fun _ => 0) 150 =
        (if Preset.NORMAL = Preset.AFIB
         then Real.sin ((150 : ℝ) / 100 * 50) * 0.05 else 0) :=
  c1_bpm0_single_beat_and_zero_tail Preset.NORMAL ecgBpm0Params
    (fun _ => 0) (fun _ => 0) rfl rfl (by decide) (by decide) 150 (by norm_num)

/-- C1 counterexample: with `bpm = 0` and `noise = 0` on the (non-special)
`NORMAL` preset, the schedule is `[0.2]` — a beat IS scheduled — and the
sample at `t = 0.2 s` (index `20`) has strictly positive voltage, refuting
"no beats are scheduled and every output sample has voltage 0". -/
theorem c1_counterexample :
    beatsR ecgBpm0Params (fun _ => 0) = [(0.2 : ℝ)] ∧
      0 < ecgVoltage Preset.NORMAL ecgBpm0Params
          (beatsR ecgBpm0Params (fun _ => 0)) (fun _ => 0) 20 := by
  have hbeats := beatsR_bpm0 ecgBpm0Params (fun _ => 0) rfl
  refine ⟨hbeats, ?_⟩
  rw [hbeats]
  have hnv : Preset.NORMAL ≠ Preset.VFIB := by decide
  have hna : Preset.NORMAL ≠ Preset.ASYSTOLE := by decide
  have hnaf : Preset.NORMAL ≠ Preset.AFIB := by decide
  simp only [ecgVoltage, beatContrib, gaussian, qrsMult, ecgBpm0Params,
    List.map_cons, List.map_nil, List.sum_cons, List.sum_nil,
    if_neg hnv, if_neg hna, if_neg hnaf]
  norm_num
  nlinarith [Real.exp_pos (-8 : ℝ), Real.exp_pos (-(625 / 128) : ℝ),
    Real.exp_pos (-2 : ℝ), Real.exp_pos (-(8 / 9) : ℝ),
    Real.exp_le_one_iff.mpr (show (-2 : ℝ) ≤ 0 by norm_num),
    Real.exp_le_one_iff.mpr (show (-(8 / 9) : ℝ) ≤ 0 by norm_num)]

/-! ## C2: the Gaussian pulse primitive's `width = 0` behaviour -/

/-- C2 counterexample: the PPG page's copy of the Gaussian primitive has no
`width === 0` guard; at `width = 0` and `t = center` it computes
`exp(-0/0) = NaN` (here `none`), not `0` — refuting "pulse(t, center, amp, 0)
= 0 ... for every copy of the primitive". -/
theorem c2_counterexample : ppgGaussian 0.15 0.15 1 0 ≠ some 0 := by
  simp [ppgGaussian]

/-- C2 (amended): the cardiac page's copy has the explicit guard and returns
`0` at `width = 0` for every `t, center, amp`.  The PPG page's copy has no
guard: at `width = 0` it returns `0` only for `t ≠ center`, and `NaN` at
`t = center`; for `width ≠ 0` it returns the closed-form Gaussian value.
Both copies are pure and total (the PPG copy totals over JS numbers,
`NaN` included). -/
theorem c2_gaussian_zero_width (t center amp width : ℝ)
    (hne : t ≠ center) (hw : width ≠ 0) :
    gaussian t center amp 0 = 0 ∧
      ppgGaussian t center amp 0 = some 0 ∧
      ppgGaussian center center amp 0 = none ∧
      ppgGaussian t center amp width = some (ppgGaussianCore t center amp width) := by
  refine ⟨by simp [gaussian], ?_, by simp [ppgGaussian], by simp [ppgGaussian, hw]⟩
  simp [ppgGaussian, hne]

/-- C2 witness: the amended statement at `t = 1`, `center = 0`, `amp = 2`,
`width = 3`. -/
theorem c2_witness :
    gaussian 1 0 2 0 = 0 ∧
      ppgGaussian 1 0 2 0 = some 0 ∧
      ppgGaussian 0 0 2 0 = none ∧
      ppgGaussian 1 0 2 3 = some (ppgGaussianCore 1 0 2 3) :=
  c2_gaussian_zero_width 1 0 2 3 (by norm_num) (by norm_num)

/-! ## Helper lemmas: ventilator timing and volume integration -/

theorem ventVol_eq_step (p : VentParams) (i : ℕ) :
    ventVol p i = stepVol p i (prevVolAt p i) := by
  cases i <;> rfl

theorem cycleTime_rr15 (p : VentParams) (hrr : p.rr = 15) : cycleTime p = 4 := by
  unfold cycleTime
  rw [hrr]
  norm_num

theorem inspTime_rr15 (p : VentParams) (hrr : p.rr = 15)
    (hie : p.ieRatioVal = 2) : inspTime p = 4 / 3 := by
  unfold inspTime
  rw [cycleTime_rr15 p hrr, hie]
  norm_num

/-- In the first simulated cycle (steps `0`–`199` at `rr = 15`),
`timeInCycle` is the raw step time. -/
theorem tIC_rr15_lo (p : VentParams) (hrr : p.rr = 15) (i : ℕ) (hi : i ≤ 199) :
    tIC p i = i * 0.02 := by
  have hc : (i : ℝ) ≤ 199 := by exact_mod_cast hi
  unfold tIC tAt ventDt
  rw [cycleTime_rr15 p hrr]
  have hfl : ⌊((i : ℝ) * 0.02) / 4⌋ = 0 := by
    rw [Int.floor_eq_zero_iff]
    constructor
    · positivity
    · nlinarith
  rw [hfl]
  norm_num

/-- In the second simulated cycle (steps `200`–`399` at `rr = 15`),
`timeInCycle` is the step time less one cycle length. -/
theorem tIC_rr15_hi (p : VentParams) (hrr : p.rr = 15) (i : ℕ)
    (hlo : 200 ≤ i) (hhi : i ≤ 399) :
    tIC p i = i * 0.02 - 4 := by
  have hc1 : (200 : ℝ) ≤ (i : ℝ) := by exact_mod_cast hlo
  have hc2 : (i : ℝ) ≤ 399 := by exact_mod_cast hhi
  unfold tIC tAt ventDt
  rw [cycleTime_rr15 p hrr]
  have hfl : ⌊((i : ℝ) * 0.02) / 4⌋ = 1 := by
    rw [Int.floor_eq_iff]
    constructor
    · push_cast
      nlinarith
    · push_cast
      nlinarith
  rw [hfl]
  norm_num

/-- `timeInCycle` at an offset `o + j` where `o` starts a cycle
(`o = 0` or `o = 200` at `rr = 15`). -/
theorem tIC_family (p : VentParams) (hrr : p.rr = 15) (o j : ℕ)
    (ho : o = 0 ∨ o = 200) (hj : j ≤ 199) :
    tIC p (o + j) = j * 0.02 := by
  rcases ho with h | h
  · subst h
    simpa using tIC_rr15_lo p hrr j hj
  · subst h
    rw [tIC_rr15_hi p hrr (200 + j) (by omega) (by omega)]
    push_cast
    ring

/-- Steps `o + j`, `j ≤ 66`, are inspiration steps at `rr = 15`,
`ieRatio = 2` (inspiration time `4/3 s`, step time up to `1.32 s`). -/
theorem isInsp_family (p : VentParams) (hrr : p.rr = 15) (hie : p.ieRatioVal = 2)
    (o j : ℕ) (ho : o = 0 ∨ o = 200) (hj : j ≤ 66) : isInsp p (o + j) := by
  have hc : (j : ℝ) ≤ 66 := by exact_mod_cast hj
  unfold isInsp
  rw [tIC_family p hrr o j ho (by omega), inspTime_rr15 p hrr hie]
  nlinarith

theorem stepVol_reset (p : VentParams) (i : ℕ) (prev : ℝ)
    (hinsp : isInsp p i) (hr : tIC p i < ventDt)
    (hpos : 0 ≤ trappedVolume p + flowAt p i prev * ventDt) :
    stepVol p i prev = trappedVolume p + flowAt p i prev * ventDt := by
  unfold stepVol
  rw [if_pos (show isInsp p i ∧ tIC p i < ventDt from ⟨hinsp, hr⟩)]
  rw [if_neg (not_lt.mpr hpos)]

theorem stepVol_noreset (p : VentParams) (i : ℕ) (prev : ℝ)
    (hnr : ¬tIC p i < ventDt)
    (hpos : 0 ≤ prev + flowAt p i prev * ventDt) :
    stepVol p i prev = prev + flowAt p i prev * ventDt := by
  unfold stepVol
  rw [if_neg (show ¬(isInsp p i ∧ tIC p i < ventDt) from fun hc => hnr hc.2)]
  rw [if_neg (not_lt.mpr hpos)]

/-- Volume-control inspiration flow, square shape, at `tidalVolume = 500`,
`rr = 15`, `ieRatio = 2`: the constant `0.5 / (4/3) = 0.375 L/s`, whatever
the running volume. -/
theorem flowAt_family_sq (p : VentParams) (hm : p.mode = Mode.VC)
    (hs : p.flowShape = FlowShape.Square) (hrr : p.rr = 15)
    (hie : p.ieRatioVal = 2) (htv : p.tidalVolume = 500)
    (i : ℕ) (v : ℝ) (hinsp : isInsp p i) :
    flowAt p i v = 0.375 := by
  unfold flowAt
  rw [if_pos hm, if_pos hinsp, if_pos hs, htv, inspTime_rr15 p hrr hie]
  norm_num

/-- Volume-control inspiration flow, decelerating shape, at
`tidalVolume = 500`, `rr = 15`, `ieRatio = 2`: starts at twice the square
rate (`0.75 L/s`) and decays linearly with `timeInCycle`. -/
theorem flowAt_family_dec (p : VentParams) (hm : p.mode = Mode.VC)
    (hs : p.flowShape = FlowShape.Decelerating) (hrr : p.rr = 15)
    (hie : p.ieRatioVal = 2) (htv : p.tidalVolume = 500)
    (i : ℕ) (v : ℝ) (hinsp : isInsp p i) :
    flowAt p i v = 0.75 * (1 - tIC p i * (3 / 4)) := by
  have hns : ¬p.flowShape = FlowShape.Square := by
    rw [hs]
    decide
  unfold flowAt
  rw [if_pos hm, if_pos hinsp, if_neg hns, htv, inspTime_rr15 p hrr hie]
  ring_nf

theorem prevVolAt_succ (p : VentParams) (i : ℕ) :
    prevVolAt p (i + 1) = ventVol p i := rfl

/-- Square-flow volume-control inspiration at `tidalVolume = 500`,
`rr = 15`, `ieRatio = 2`, no auto-PEEP: during each inspiration
(steps `o + j`, `j ≤ 66`, of either simulated cycle) the integrated
volume is `(j + 1) * 0.375 L/s * 0.02 s`, independent of resistance,
compliance, PEEP, trigger effort and overdistension. -/
theorem ventVol_family_sq (p : VentParams) (hm : p.mode = Mode.VC)
    (hs : p.flowShape = FlowShape.Square) (hrr : p.rr = 15)
    (hie : p.ieRatioVal = 2) (htv : p.tidalVolume = 500)
    (hap : p.autoPeep = false) (o : ℕ) (ho : o = 0 ∨ o = 200) :
    ∀ j : ℕ, j ≤ 66 → ventVol p (o + j) = ((j : ℝ) + 1) * 0.0075 := by
  have htr : trappedVolume p = 0 := by simp [trappedVolume, hap]
  intro j
  induction j with
  | zero =>
    intro _
    have hinsp := isInsp_family p hrr hie o 0 ho (by omega)
    have hr : tIC p (o + 0) < ventDt := by
      rw [tIC_family p hrr o 0 ho (by omega)]
      unfold ventDt
      norm_num
    have hflow := flowAt_family_sq p hm hs hrr hie htv (o + 0)
      (prevVolAt p (o + 0)) hinsp
    rw [ventVol_eq_step, stepVol_reset p (o + 0) _ hinsp hr
      (by rw [htr, hflow]; unfold ventDt; norm_num)]
    rw [htr, hflow]
    unfold ventDt
    norm_num
  | succ n ih =>
    intro hn
    have ihv := ih (by omega)
    have hidx : o + (n + 1) = (o + n) + 1 := by omega
    have hinsp := isInsp_family p hrr hie o (n + 1) ho (by omega)
    have hnr : ¬tIC p (o + (n + 1)) < ventDt := by
      rw [tIC_family p hrr o (n + 1) ho (by omega)]
      unfold ventDt
      push_cast
      intro hcon
      nlinarith [Nat.cast_nonneg (α := ℝ) n]
    rw [hidx] at hinsp hnr ⊢
    have hflow := flowAt_family_sq p hm hs hrr hie htv ((o + n) + 1)
      (ventVol p (o + n)) hinsp
    rw [ventVol_eq_step, prevVolAt_succ,
      stepVol_noreset p ((o + n) + 1) (ventVol p (o + n)) hnr
        (by rw [hflow, ihv]; unfold ventDt; nlinarith [Nat.cast_nonneg (α := ℝ) n])]
    rw [hflow, ihv]
    unfold ventDt
    push_cast
    ring

/-- Decelerating-ramp volume-control inspiration at `tidalVolume = 500`,
`rr = 15`, `ieRatio = 2`, no auto-PEEP: the integrated volume after step
`o + j` of either inspiration is the Riemann sum of the linearly decaying
flow, again independent of resistance, compliance, PEEP, trigger effort and
overdistension. -/
theorem ventVol_family_dec (p : VentParams) (hm : p.mode = Mode.VC)
    (hs : p.flowShape = FlowShape.Decelerating) (hrr : p.rr = 15)
    (hie : p.ieRatioVal = 2) (htv : p.tidalVolume = 500)
    (hap : p.autoPeep = false) (o : ℕ) (ho : o = 0 ∨ o = 200) :
    ∀ j : ℕ, j ≤ 66 →
      ventVol p (o + j) =
        ((j : ℝ) + 1) * 0.015 - (j : ℝ) * ((j : ℝ) + 1) * 0.0001125 := by
  have htr : trappedVolume p = 0 := by simp [trappedVolume, hap]
  intro j
  induction j with
  | zero =>
    intro _
    have hinsp := isInsp_family p hrr hie o 0 ho (by omega)
    have htic : tIC p (o + 0) = 0 := by
      rw [tIC_family p hrr o 0 ho (by omega)]
      norm_num
    have hr : tIC p (o + 0) < ventDt := by
      rw [htic]
      unfold ventDt
      norm_num
    have hflow := flowAt_family_dec p hm hs hrr hie htv (o + 0)
      (prevVolAt p (o + 0)) hinsp
    rw [htic] at hflow
    rw [ventVol_eq_step, stepVol_reset p (o + 0) _ hinsp hr
      (by rw [htr, hflow]; unfold ventDt; norm_num)]
    rw [htr, hflow]
    unfold ventDt
    norm_num
  | succ n ih =>
    intro hn
    have hcn : (n : ℝ) ≤ 65 := by exact_mod_cast (by omega : n ≤ 65)
    have hcn0 : (0 : ℝ) ≤ (n : ℝ) := Nat.cast_nonneg n
    have ihv := ih (by omega)
    have hidx : o + (n + 1) = (o + n) + 1 := by omega
    have hinsp := isInsp_family p hrr hie o (n + 1) ho (by omega)
    have htic : tIC p (o + (n + 1)) = ((n : ℝ) + 1) * 0.02 := by
      rw [tIC_family p hrr o (n + 1) ho (by omega)]
      push_cast
      ring
    have hnr : ¬tIC p (o + (n + 1)) < ventDt := by
      rw [htic]
      unfold ventDt
      intro hcon
      nlinarith
    have hflow := flowAt_family_dec p hm hs hrr hie htv (o + (n + 1))
      (ventVol p (o + n)) (by rw [← hidx] at *; exact hinsp)
    rw [htic] at hflow
    rw [hidx] at hinsp hnr hflow ⊢
    rw [ventVol_eq_step, prevVolAt_succ,
      stepVol_noreset p ((o + n) + 1) (ventVol p (o + n)) hnr
        (by rw [hflow, ihv]; unfold ventDt; nlinarith)]
    rw [hflow, ihv]
    unfold ventDt
    push_cast
    ring

theorem ventScalar_volume (p : VentParams) (i : ℕ) :
    (ventScalar p i).volume = ventVol p i * 1000 := rfl

theorem ventScalar_pressure (p : VentParams) (i : ℕ) :
    (ventScalar p i).pressure = ventPressure p i := rfl

theorem ventScalar_flow (p : VentParams) (i : ℕ) :
    (ventScalar p i).flow = ventFlow p i * 60 := rfl

theorem ventLoop_volume (p : VentParams) (i : ℕ) :
    (ventLoop p i).volume = ventVol p i * 1000 := rfl

theorem ventLoop_pressure (p : VentParams) (i : ℕ) :
    (ventLoop p i).pressure = ventPressure p i := rfl

theorem ventLoop_flow (p : VentParams) (i : ℕ) :
    (ventLoop p i).flow = ventFlow p i * 60 := rfl

/-! ## C3: volume-control tidal-volume delivery -/

/-- C3: in volume-control mode with `tidalVolume = 500` (timing at the
page defaults `rr = 15`, I:E `1:2`, no auto-PEEP), for any resistance,
compliance, PEEP, pressure-control setting, trigger effort and
overdistension flag, and for either flow shape, the peak recorded volume
sample of each of the two inspirations (steps `0`–`66` and `200`–`266`) is
attained at the inspiration's last step and lies within `8 mL` of `500 mL`
(square flow delivers `502.5`, the decelerating ramp `507.525`). -/
theorem c3_tidal_volume_delivery (R C peep pc tE : ℝ) (od : Bool)
    (shape : FlowShape) :
    let p : VentParams :=
      { mode := Mode.VC
        rr := 15
        peep := peep
        tidalVolume := 500
        pressureControl := pc
        resistance := R
        compliance := C
        ieRatioVal := 2
        flowShape := shape
        triggerEffort := tE
        overdistension := od
        autoPeep := false }
    (∀ j : Fin 67, (ventScalar p (j : ℕ)).volume ≤ (ventScalar p 66).volume) ∧
      |(ventScalar p 66).volume - 500| ≤ 8 ∧
      (∀ j : Fin 67,
        (ventScalar p (200 + (j : ℕ))).volume ≤ (ventScalar p 266).volume) ∧
      |(ventScalar p 266).volume - 500| ≤ 8 := by
  cases shape with
  | Square =>
    intro p
    have hvs := ventVol_family_sq p rfl rfl rfl rfl rfl rfl
    refine ⟨?_, ?_, ?_, ?_⟩
    · intro j
      have hj : (j : ℕ) ≤ 66 := by have := j.isLt; omega
      have h1 := hvs 0 (Or.inl rfl) (j : ℕ) hj
      have h2 := hvs 0 (Or.inl rfl) 66 (by norm_num)
      rw [Nat.zero_add] at h1 h2
      rw [ventScalar_volume, ventScalar_volume, h1, h2]
      have hc : ((j : ℕ) : ℝ) ≤ 66 := by exact_mod_cast hj
      nlinarith
    · have h2 := hvs 0 (Or.inl rfl) 66 (by norm_num)
      rw [Nat.zero_add] at h2
      rw [ventScalar_volume, h2, abs_le]
      push_cast
      constructor <;> norm_num
    · intro j
      have hj : (j : ℕ) ≤ 66 := by have := j.isLt; omega
      have h1 := hvs 200 (Or.inr rfl) (j : ℕ) hj
      have h2 := hvs 200 (Or.inr rfl) 66 (by norm_num)
      rw [show 200 + 66 = 266 from by norm_num] at h2
      rw [ventScalar_volume, ventScalar_volume, h1, h2]
      have hc : ((j : ℕ) : ℝ) ≤ 66 := by exact_mod_cast hj
      nlinarith
    · have h2 := hvs 200 (Or.inr rfl) 66 (by norm_num)
      rw [show 200 + 66 = 266 from by norm_num] at h2
      rw [ventScalar_volume, h2, abs_le]
      push_cast
      constructor <;> norm_num
  | Decelerating =>
    intro p
    have hvd := ventVol_family_dec p rfl rfl rfl rfl rfl rfl
    refine ⟨?_, ?_, ?_, ?_⟩
    · intro j
      have hj : (j : ℕ) ≤ 66 := by have := j.isLt; omega
      have h1 := hvd 0 (Or.inl rfl) (j : ℕ) hj
      have h2 := hvd 0 (Or.inl rfl) 66 (by norm_num)
      rw [Nat.zero_add] at h1 h2
      rw [ventScalar_volume, ventScalar_volume, h1, h2]
      have hc : ((j : ℕ) : ℝ) ≤ 66 := by exact_mod_cast hj
      have hc0 : (0 : ℝ) ≤ ((j : ℕ) : ℝ) := Nat.cast_nonneg _
      have hfac : 0 ≤ (66 - ((j : ℕ) : ℝ)) *
          (0.0148875 - 0.0001125 * (66 + ((j : ℕ) : ℝ))) := by
        apply mul_nonneg
        · linarith
        · nlinarith
      push_cast
      nlinarith [hfac]
    · have h2 := hvd 0 (Or.inl rfl) 66 (by norm_num)
      rw [Nat.zero_add] at h2
      rw [ventScalar_volume, h2, abs_le]
      push_cast
      constructor <;> norm_num
    · intro j
      have hj : (j : ℕ) ≤ 66 := by have := j.isLt; omega
      have h1 := hvd 200 (Or.inr rfl) (j : ℕ) hj
      have h2 := hvd 200 (Or.inr rfl) 66 (by norm_num)
      rw [show 200 + 66 = 266 from by norm_num] at h2
      rw [ventScalar_volume, ventScalar_volume, h1, h2]
      have hc : ((j : ℕ) : ℝ) ≤ 66 := by exact_mod_cast hj
      have hc0 : (0 : ℝ) ≤ ((j : ℕ) : ℝ) := Nat.cast_nonneg _
      have hfac : 0 ≤ (66 - ((j : ℕ) : ℝ)) *
          (0.0148875 - 0.0001125 * (66 + ((j : ℕ) : ℝ))) := by
        apply mul_nonneg
        · linarith
        · nlinarith
      push_cast
      nlinarith [hfac]
    · have h2 := hvd 200 (Or.inr rfl) 66 (by norm_num)
      rw [show 200 + 66 = 266 from by norm_num] at h2
      rw [ventScalar_volume, h2, abs_le]
      push_cast
      constructor <;> norm_num

/-! ## Helper lemmas: parameter-frame facts -/

/-- The volume recursion never reads the `overdistension` flag (effective
compliance enters only the pressure equation). -/
theorem ventVol_od_irrel (p : VentParams) (b : Bool) (i : ℕ) :
    ventVol { p with overdistension := b } i = ventVol p i := by
  induction i with
  | zero => rfl
  | succ n ih =>
    show stepVol { p with overdistension := b } (n + 1)
        (ventVol { p with overdistension := b } n) = stepVol p (n + 1) (ventVol p n)
    rw [ih]
    rfl

/-- Neither branch of the flow computation reads the `overdistension`
flag (the pressure-control time constant uses the raw compliance). -/
theorem ventFlow_od_irrel (p : VentParams) (b : Bool) (i : ℕ) :
    ventFlow { p with overdistension := b } i = ventFlow p i := by
  cases i with
  | zero => rfl
  | succ n =>
    show flowAt { p with overdistension := b } (n + 1)
        (ventVol { p with overdistension := b } n) = flowAt p (n + 1) (ventVol p n)
    rw [ventVol_od_irrel]
    rfl

/-- The volume recursion never reads `triggerEffort` (the muscle-pressure
term enters only the pressure equation). -/
theorem ventVol_tE_irrel (p : VentParams) (x : ℝ) (i : ℕ) :
    ventVol { p with triggerEffort := x } i = ventVol p i := by
  induction i with
  | zero => rfl
  | succ n ih =>
    show stepVol { p with triggerEffort := x } (n + 1)
        (ventVol { p with triggerEffort := x } n) = stepVol p (n + 1) (ventVol p n)
    rw [ih]
    rfl

/-- The flow computation never reads `triggerEffort`. -/
theorem ventFlow_tE_irrel (p : VentParams) (x : ℝ) (i : ℕ) :
    ventFlow { p with triggerEffort := x } i = ventFlow p i := by
  cases i with
  | zero => rfl
  | succ n =>
    show flowAt { p with triggerEffort := x } (n + 1)
        (ventVol { p with triggerEffort := x } n) = flowAt p (n + 1) (ventVol p n)
    rw [ventVol_tE_irrel]
    rfl

/-! ## C10: overdistension touches only the pressure channel -/

/-- C10: two ventilator runs identical except for the `overdistension` flag
produce pointwise-identical flow and volume sequences, in the scalar and the
loop output alike (and identical times); only the pressure samples can
differ, since the reduced effective compliance enters only the
elastic-pressure term while every flow computation uses the raw compliance
parameter. -/
theorem c10_overdistension_frame (p : VentParams) (b : Bool) (i : ℕ) :
    ventFlow { p with overdistension := b } i = ventFlow p i ∧
      ventVol { p with overdistension := b } i = ventVol p i ∧
      (ventScalar { p with overdistension := b } i).flow = (ventScalar p i).flow ∧
      (ventScalar { p with overdistension := b } i).volume = (ventScalar p i).volume ∧
      (ventScalar { p with overdistension := b } i).time = (ventScalar p i).time ∧
      (ventLoop { p with overdistension := b } i).flow = (ventLoop p i).flow ∧
      (ventLoop { p with overdistension := b } i).volume = (ventLoop p i).volume := by
  refine ⟨ventFlow_od_irrel p b i, ventVol_od_irrel p b i, ?_, ?_, rfl, ?_, ?_⟩
  · rw [ventScalar_flow, ventScalar_flow, ventFlow_od_irrel]
  · rw [ventScalar_volume, ventScalar_volume, ventVol_od_irrel]
  · rw [ventLoop_flow, ventLoop_flow, ventFlow_od_irrel]
  · rw [ventLoop_volume, ventLoop_volume, ventVol_od_irrel]

/-! ## C9: trigger effort touches only the pressure channel -/

/-- C9: two ventilator runs identical except for `triggerEffort` (the
generator draws no randomness at all) produce pointwise-identical flow and
volume sequences; only the pressure can change, through the muscle-pressure
term, and in pressure-control inspiration even the pressure is pinned to
`peep + pressureControl` and hence unchanged. -/
theorem c9_trigger_effort_frame (p : VentParams) (x : ℝ) (i : ℕ) :
    ventFlow { p with triggerEffort := x } i = ventFlow p i ∧
      ventVol { p with triggerEffort := x } i = ventVol p i ∧
      (ventScalar { p with triggerEffort := x } i).flow = (ventScalar p i).flow ∧
      (ventScalar { p with triggerEffort := x } i).volume = (ventScalar p i).volume ∧
      (p.mode = Mode.PC → isInsp p i →
        ventPressure { p with triggerEffort := x } i = ventPressure p i) := by
  refine ⟨ventFlow_tE_irrel p x i, ventVol_tE_irrel p x i, ?_, ?_, ?_⟩
  · rw [ventScalar_flow, ventScalar_flow, ventFlow_tE_irrel]
  · rw [ventScalar_volume, ventScalar_volume, ventVol_tE_irrel]
  · intro hm hinsp
    unfold ventPressure
    rw [if_pos (show ({ p with triggerEffort := x } : VentParams).mode = Mode.PC ∧
          isInsp { p with triggerEffort := x } i from ⟨hm, hinsp⟩),
      if_pos (show p.mode = Mode.PC ∧ isInsp p i from ⟨hm, hinsp⟩)]

/-- C9 witness: pressure-control run at the page defaults, `triggerEffort`
raised to `8`, step `0` (an inspiration step): flow, volume and the pinned
pressure all agree with the `triggerEffort = 0` run. -/
theorem c9_witness :
    ventFlow { { ventDefault with mode := Mode.PC } with triggerEffort := 8 } 0 =
        ventFlow { ventDefault with mode := Mode.PC } 0 ∧
      ventVol { { ventDefault with mode := Mode.PC } with triggerEffort := 8 } 0 =
        ventVol { ventDefault with mode := Mode.PC } 0 ∧
      ventPressure { { ventDefault with mode := Mode.PC } with triggerEffort := 8 } 0 =
        ventPressure { ventDefault with mode := Mode.PC } 0 := by
  have hinsp : isInsp { ventDefault with mode := Mode.PC } 0 := by
    have h := isInsp_family { ventDefault with mode := Mode.PC } rfl rfl 0 0
      (Or.inl rfl) (by norm_num)
    rwa [Nat.zero_add] at h
  have h := c9_trigger_effort_frame { ventDefault with mode := Mode.PC } 8 0
  exact ⟨h.1, h.2.1, h.2.2.2.2 rfl hinsp⟩

/-! ## C4: overdistension and the pressure at high volume -/

/-- C4 (amended): outside pressure-control inspiration (where the pressure
is pinned to `peep + pressureControl` regardless of compliance) and provided
`compliance > 5` (so that the floor of `5` keeps the effective compliance
strictly below the raw compliance), enabling `overdistension` strictly
raises the emitted pressure at every step whose volume exceeds `0.45 L`;
the flow and volume sequences of the two runs coincide. -/
theorem c4_overdistension_raises_pressure (p : VentParams) (i : ℕ)
    (hod : p.overdistension = false) (hC : 5 < p.compliance)
    (hnp : ¬(p.mode = Mode.PC ∧ isInsp p i)) (hv : 0.45 < ventVol p i) :
    ventPressure p i < ventPressure { p with overdistension := true } i := by
  have hvol := ventVol_od_irrel p true i
  have hflow := ventFlow_od_irrel p true i
  have hmus : musclePressure { p with overdistension := true } i =
      musclePressure p i := rfl
  have hv' : 0.45 < ventVol { p with overdistension := true } i := by
    rw [hvol]
    exact hv
  have heff1 : effectiveCompliance p (ventVol p i) = p.compliance := by
    unfold effectiveCompliance
    rw [if_neg]
    rintro ⟨h, -⟩
    rw [hod] at h
    exact Bool.false_ne_true h
  have heff2 : effectiveCompliance { p with overdistension := true }
      (ventVol { p with overdistension := true } i) =
      if p.compliance * (1 - (ventVol p i - 0.45) * 2) < 5 then (5 : ℝ)
      else p.compliance * (1 - (ventVol p i - 0.45) * 2) := by
    unfold effectiveCompliance
    rw [if_pos (show ({ p with overdistension := true } : VentParams).overdistension
          = true ∧ ventVol { p with overdistension := true } i > 0.45 from ⟨rfl, hv'⟩),
      hvol]
  have hnp' : ¬(({ p with overdistension := true } : VentParams).mode = Mode.PC ∧
      isInsp { p with overdistension := true } i) := hnp
  unfold ventPressure
  rw [if_neg hnp, if_neg hnp', hflow, hmus, heff2, hvol, heff1]
  have hpp : ({ p with overdistension := true } : VentParams).resistance
      = p.resistance := rfl
  have hpe : ({ p with overdistension := true } : VentParams).peep = p.peep := rfl
  rw [hpp, hpe]
  split_ifs with hsm
  · have hd := div_lt_div_of_pos_left
      (show (0 : ℝ) < ventVol p i * 1000 by nlinarith)
      (show (0 : ℝ) < 5 by norm_num) hC
    linarith
  · have hlt : p.compliance * (1 - (ventVol p i - 0.45) * 2) < p.compliance := by
      nlinarith
    have hpos : (0 : ℝ) < p.compliance * (1 - (ventVol p i - 0.45) * 2) := by
      linarith [not_lt.mp hsm]
    have hd := div_lt_div_of_pos_left
      (show (0 : ℝ) < ventVol p i * 1000 by nlinarith) hpos hlt
    linarith

/-- C4 witness: volume-control square flow at the page defaults
(`compliance = 50 > 5`), step `66`: the volume is `502.5 mL > 450 mL` and
the overdistension run's pressure is strictly higher. -/
theorem c4_witness :
    0.45 < ventVol { ventDefault with flowShape := FlowShape.Square } 66 ∧
      ventPressure { ventDefault with flowShape := FlowShape.Square } 66 <
        ventPressure { { ventDefault with flowShape := FlowShape.Square } with
          overdistension := true } 66 := by
  have hv : 0.45 < ventVol { ventDefault with flowShape := FlowShape.Square } 66 := by
    have h := ventVol_family_sq { ventDefault with flowShape := FlowShape.Square }
      rfl rfl rfl rfl rfl rfl 0 (Or.inl rfl) 66 (by norm_num)
    rw [Nat.zero_add] at h
    rw [h]
    norm_num
  refine ⟨hv, c4_overdistension_raises_pressure _ 66 rfl
    (show (5 : ℝ) < 50 by norm_num) ?_ hv⟩
  rintro ⟨h, -⟩
  exact absurd h (by decide)

/-- C4 counterexample, in two parts.  Part one: in pressure-control mode
(`pressureControl = 30`, `resistance = 5`, `compliance = 100`, all within
the UI ranges) the volume at inspiration step `3` already exceeds `0.45 L`,
yet the pressure of the overdistension run EQUALS that of the plain run —
it is pinned to `peep + pressureControl`.  Part two: with `compliance = 4`
(≤ the floor of `5`) in volume-control mode, at step `62` the volume is
`472.5 mL > 450 mL` and the overdistension run's pressure is strictly
LOWER, because the floor raises the effective compliance above the raw
compliance.  Both refute "pressure strictly greater at every step where
volume exceeds 450 mL". -/
theorem c4_counterexample :
    (0.45 < ventVol ventPCHigh 3 ∧
      ventPressure { ventPCHigh with overdistension := true } 3 =
        ventPressure ventPCHigh 3) ∧
    (0.45 < ventVol ventLowC 62 ∧
      ventPressure { ventLowC with overdistension := true } 62 <
        ventPressure ventLowC 62) := by
  constructor
  · have hinsp : ∀ j : ℕ, j ≤ 66 → isInsp ventPCHigh j := by
      intro j hj
      have h := isInsp_family ventPCHigh rfl rfl 0 j (Or.inl rfl) hj
      rwa [Nat.zero_add] at h
    have hstep : ∀ n : ℕ, n + 1 ≤ 66 → 0 ≤ ventVol ventPCHigh n →
        ventVol ventPCHigh (n + 1) =
          ventVol ventPCHigh n + 6 * Real.exp (-(((n : ℝ) + 1) * 0.04)) * 0.02 := by
      intro n hn hprev
      have htic : tIC ventPCHigh (n + 1) = ((n : ℝ) + 1) * 0.02 := by
        rw [tIC_rr15_lo ventPCHigh rfl (n + 1) (by omega)]
        push_cast
        ring
      have hflow : ∀ v : ℝ, flowAt ventPCHigh (n + 1) v =
          6 * Real.exp (-(((n : ℝ) + 1) * 0.04)) := by
        intro v
        unfold flowAt timeConstant
        rw [if_neg (show ¬ventPCHigh.mode = Mode.VC by decide),
          if_pos (hinsp (n + 1) hn), htic]
        show (30 : ℝ) / 5 *
            Real.exp (-(((n : ℝ) + 1) * 0.02) / (5 * (100 / 1000))) =
          6 * Real.exp (-(((n : ℝ) + 1) * 0.04))
        have harg : -(((n : ℝ) + 1) * 0.02) / (5 * (100 / 1000)) =
            -(((n : ℝ) + 1) * 0.04) := by
          ring
        rw [harg]
        norm_num
      have hnr : ¬tIC ventPCHigh (n + 1) < ventDt := by
        rw [htic]
        unfold ventDt
        intro hcon
        nlinarith [Nat.cast_nonneg (α := ℝ) n]
      rw [ventVol_eq_step, prevVolAt_succ,
        stepVol_noreset ventPCHigh (n + 1) _ hnr
          (by rw [hflow]
              unfold ventDt
              nlinarith [Real.exp_pos (-(((n : ℝ) + 1) * 0.04))])]
      rw [hflow]
      unfold ventDt
      rfl
    have hstepLB : ∀ n : ℕ, n + 1 ≤ 66 → 0 ≤ ventVol ventPCHigh n →
        ventVol ventPCHigh n + (0.12 - ((n : ℝ) + 1) * 0.0048) ≤
          ventVol ventPCHigh (n + 1) := by
      intro n hn hprev
      rw [hstep n hn hprev]
      nlinarith [Real.add_one_le_exp (-(((n : ℝ) + 1) * 0.04))]
    have htr : trappedVolume ventPCHigh = 0 := by
      have hb : ventPCHigh.autoPeep = false := rfl
      simp [trappedVolume, hb]
    have h0 : ventVol ventPCHigh 0 = 0.12 := by
      have htic0 : tIC ventPCHigh 0 = 0 := by
        rw [tIC_rr15_lo ventPCHigh rfl 0 (by omega)]
        norm_num
      have hflow0 : ∀ v : ℝ, flowAt ventPCHigh 0 v = 6 := by
        intro v
        unfold flowAt timeConstant
        rw [if_neg (show ¬ventPCHigh.mode = Mode.VC by decide),
          if_pos (hinsp 0 (by norm_num)), htic0]
        show (30 : ℝ) / 5 * Real.exp (-0 / (5 * (100 / 1000))) = 6
        norm_num
      rw [ventVol_eq_step,
        stepVol_reset ventPCHigh 0 _ (hinsp 0 (by norm_num))
          (by rw [htic0]; unfold ventDt; norm_num)
          (by rw [htr, hflow0]; unfold ventDt; norm_num)]
      rw [htr, hflow0]
      unfold ventDt
      norm_num
    have h1 : (0.2352 : ℝ) ≤ ventVol ventPCHigh 1 := by
      have hs := hstepLB 0 (by norm_num) (by rw [h0]; norm_num)
      rw [h0] at hs
      norm_num at hs ⊢
      linarith
    have h2 : (0.3456 : ℝ) ≤ ventVol ventPCHigh 2 := by
      have hs := hstepLB 1 (by norm_num) (by linarith)
      norm_num at hs ⊢
      linarith
    have h3 : (0.4512 : ℝ) ≤ ventVol ventPCHigh 3 := by
      have hs := hstepLB 2 (by norm_num) (by linarith)
      norm_num at hs ⊢
      linarith
    refine ⟨by linarith, ?_⟩
    have hinsp3 := hinsp 3 (by norm_num)
    unfold ventPressure
    rw [if_pos (show ({ ventPCHigh with overdistension := true } : VentParams).mode
          = Mode.PC ∧ isInsp { ventPCHigh with overdistension := true } 3 from
        ⟨rfl, hinsp3⟩),
      if_pos (show ventPCHigh.mode = Mode.PC ∧ isInsp ventPCHigh 3 from
        ⟨rfl, hinsp3⟩)]
  · have hv62 : ventVol ventLowC 62 = 0.4725 := by
      have h := ventVol_family_sq ventLowC rfl rfl rfl rfl rfl rfl 0
        (Or.inl rfl) 62 (by norm_num)
      rw [Nat.zero_add] at h
      rw [h]
      norm_num
    have hv62' : (0.45 : ℝ) < ventVol ventLowC 62 := by
      rw [hv62]
      norm_num
    refine ⟨hv62', ?_⟩
    have hvol := ventVol_od_irrel ventLowC true 62
    have hflow := ventFlow_od_irrel ventLowC true 62
    have hinsp62 : isInsp ventLowC 62 := by
      have h := isInsp_family ventLowC rfl rfl 0 62 (Or.inl rfl) (by norm_num)
      rwa [Nat.zero_add] at h
    have hfl : ventFlow ventLowC 62 = 0.375 := by
      unfold ventFlow
      exact flowAt_family_sq ventLowC rfl rfl rfl rfl rfl 62 _ hinsp62
    have hmus : musclePressure ventLowC 62 = 0 := by
      unfold musclePressure
      rw [if_neg]
      rintro ⟨h, -⟩
      exact absurd h (show ¬ventLowC.triggerEffort > 0 by norm_num [ventLowC, ventDefault])
    have hmus2 : musclePressure { ventLowC with overdistension := true } 62 = 0 := hmus
    have heffq : effectiveCompliance { ventLowC with overdistension := true }
        (ventVol { ventLowC with overdistension := true } 62) = 5 := by
      unfold effectiveCompliance
      rw [if_pos (show ({ ventLowC with overdistension := true } : VentParams).overdistension
            = true ∧ ventVol { ventLowC with overdistension := true } 62 > 0.45 from
          ⟨rfl, by rw [hvol]; exact hv62'⟩), hvol, hv62]
      show (if (4 : ℝ) * (1 - ((0.4725 : ℝ) - 0.45) * 2) < 5 then (5 : ℝ)
        else 4 * (1 - ((0.4725 : ℝ) - 0.45) * 2)) = 5
      norm_num
    have heffp : effectiveCompliance ventLowC (ventVol ventLowC 62) = 4 := by
      unfold effectiveCompliance
      rw [if_neg]
      · rfl
      · rintro ⟨h, -⟩
        exact absurd h (by decide)
    have hnpq : ¬(({ ventLowC with overdistension := true } : VentParams).mode
        = Mode.PC ∧ isInsp { ventLowC with overdistension := true } 62) := by
      rintro ⟨h, -⟩
      exact absurd h (by decide)
    have hnpp : ¬(ventLowC.mode = Mode.PC ∧ isInsp ventLowC 62) := by
      rintro ⟨h, -⟩
      exact absurd h (by decide)
    unfold ventPressure
    rw [if_neg hnpq, if_neg hnpp, hflow, hfl, hmus, hmus2, heffq, heffp, hvol, hv62]
    norm_num [ventLowC, ventDefault]

/-! ## C5: the ventilator pressure equation -/

/-- C5: the emitted pressure at every step is `peep + pressureControl`
exactly in pressure-control inspiration (independent of resistance,
compliance, volume and trigger effort — no other parameter appears in that
branch), and in every other (mode, phase) combination it is
`flow * resistance + (volume * 1000) / effectiveCompliance + peep +
musclePressure` (volume in mL via the `* 1000` conversion). -/
theorem c5_pressure_equation (p : VentParams) (i : ℕ) :
    (ventScalar p i).pressure =
      if p.mode = Mode.PC ∧ isInsp p i then p.peep + p.pressureControl
      else
        ventFlow p i * p.resistance +
          ventVol p i * 1000 / effectiveCompliance p (ventVol p i) +
          p.peep + musclePressure p i := by
  rw [ventScalar_pressure]
  rfl

/-! ## C6: emitted volumes are non-negative -/

/-- C6: for every parameter set and every step, the emitted volume value —
in the scalar sample and in the loop sample alike — is non-negative: the
update clamps the integrated volume at zero before it is emitted. -/
theorem c6_volume_nonneg (p : VentParams) (i : ℕ) :
    0 ≤ (ventScalar p i).volume ∧ 0 ≤ (ventLoop p i).volume := by
  have h : 0 ≤ ventVol p i := by
    rw [ventVol_eq_step]
    simp only [stepVol]
    split_ifs <;> linarith
  constructor
  · rw [ventScalar_volume]
    exact mul_nonneg h (by norm_num)
  · rw [ventLoop_volume]
    exact mul_nonneg h (by norm_num)

/-! ## C7: output sequence lengths -/

/-- The trip count `numSteps` is exactly the number of loop iterations of
`for (t = 0; t < totalTime; t += dt)` in the real-number model: step `i`
runs iff `i * dt < cycleTime * 2`. -/
theorem numSteps_spec (p : VentParams) (i : ℕ) :
    i < numSteps p ↔ tAt i < cycleTime p * 2 := by
  unfold numSteps tAt
  rw [Nat.lt_ceil, lt_div_iff₀ (show (0 : ℝ) < ventDt by unfold ventDt; norm_num)]

/-- C7 (amended): the cardiac output has exactly `4 * 100 = 400` samples and
the PPG output exactly `4 * 60 = 240`; the ventilator scalar and loop
sequences have exactly `⌈2 * cycleTime / dt⌉` samples each, which equals
`2 * cycleTime / dt` whenever that quantity is a whole number (so e.g. `400`
at the default `rr = 15`), but is its round-up otherwise. -/
theorem c7_sequence_lengths :
    (∀ (preset : Preset) (p : EcgParams) (rI rN : ℕ → ℝ),
        (ecgData preset p rI rN).length = 400) ∧
      (∀ (p : PpgParams) (rN : ℕ → ℝ), (ppgData p rN).length = 240) ∧
      (∀ p : VentParams,
        (ventScalarsList p).length = ⌈cycleTime p * 2 / ventDt⌉₊ ∧
          (ventLoopsList p).length = ⌈cycleTime p * 2 / ventDt⌉₊) ∧
      (∀ (p : VentParams) (n : ℕ), cycleTime p * 2 / ventDt = (n : ℝ) →
        (ventScalarsList p).length = n ∧ (ventLoopsList p).length = n) := by
  refine ⟨?_, ?_, ?_, ?_⟩
  · intro preset p rI rN
    simp [ecgData]
  · intro p rN
    simp [ppgData]
  · intro p
    constructor <;> simp [ventScalarsList, ventLoopsList, numSteps]
  · intro p n h
    constructor <;>
      simp [ventScalarsList, ventLoopsList, numSteps, h, Nat.ceil_natCast]

/-- C7 witness: at the default `rr = 15`, `2 * cycleTime / dt = 400` is
whole and both ventilator sequences have `400` samples. -/
theorem c7_witness :
    cycleTime ventDefault * 2 / ventDt = ((400 : ℕ) : ℝ) ∧
      (ventScalarsList ventDefault).length = 400 ∧
      (ventLoopsList ventDefault).length = 400 := by
  have hd : cycleTime ventDefault * 2 / ventDt = ((400 : ℕ) : ℝ) := by
    unfold cycleTime ventDt
    show (60 : ℝ) / 15 * 2 / 0.02 = ((400 : ℕ) : ℝ)
    push_cast
    norm_num
  exact ⟨hd, c7_sequence_lengths.2.2.2 ventDefault 400 hd⟩

/-- C7 counterexample: at `rr = 13` (inside the UI range `10`–`40`) the
ventilator scalar sequence has `462 = ⌈6000/13⌉` samples, but
`2 * cycleTime / dt = 6000/13` is not a whole number, so the length does
NOT equal `2 * cycleTime / dt`. -/
theorem c7_counterexample :
    (((ventScalarsList { ventDefault with rr := 13 }).length : ℕ) : ℝ) ≠
      cycleTime { ventDefault with rr := 13 } * 2 / ventDt := by
  have harg : cycleTime { ventDefault with rr := 13 } * 2 / ventDt
      = 6000 / 13 := by
    unfold cycleTime ventDt
    show (60 : ℝ) / 13 * 2 / 0.02 = 6000 / 13
    norm_num
  have hlen : (ventScalarsList { ventDefault with rr := 13 }).length = 462 := by
    simp only [ventScalarsList, List.length_map, List.length_range, numSteps, harg]
    rw [Nat.ceil_eq_iff (by norm_num)]
    constructor <;> norm_num
  rw [hlen, harg]
  norm_num

/-! ## C8: the PPG oxygenation amplitude ratio -/

/-- C8: the red-channel pulsatile amplitude coefficient is
`R = 0.4 + (100 - spO2) * 0.03` against an infrared coefficient of `1.0`;
at `spO2 = 100` the red amplitude is strictly below the infrared one, at
`spO2 = 80` the red/infrared ratio is strictly larger than at
`spO2 = 100`, and in every emitted sample the red-minus-infrared difference
is exactly the pulsatile wave times `(R - 1)` (baseline and noise cancel). -/
theorem c8_spo2_ratio :
    (∀ s : ℝ, redAmplitudeBase s = irAmplitudeBase * (0.4 + (100 - s) * 0.03)) ∧
      redAmplitudeBase 100 < irAmplitudeBase ∧
      redAmplitudeBase 100 / irAmplitudeBase <
        redAmplitudeBase 80 / irAmplitudeBase ∧
      (∀ (p : PpgParams) (rN : ℕ → ℝ) (i : ℕ),
        (ppgSample p rN i).red - (ppgSample p rN i).ir =
          acWaveAt p i * (redAmplitudeBase p.spO2 - irAmplitudeBase)) := by
  refine ⟨fun s => rfl, ?_, ?_, ?_⟩
  · norm_num [redAmplitudeBase, rValue, irAmplitudeBase]
  · norm_num [redAmplitudeBase, rValue, irAmplitudeBase]
  · intro p rN i
    simp only [ppgSample]
    ring
